import Mathlib

/-!
Verification of the conversation-simulation engine in `simulation_core.py`.

The Python module is shallowly embedded: personas, messages and conversations
become structures; the process-wide random source becomes an explicit stream
of draws (`RandomSource`) consumed at increasing indices, mirroring the single
stateful generator shared by the whole run; `random.random()` values are
rationals, `random.randint` / `random.choice` draws are naturals taken from
the same shared counter; wall-clock readings (`time.time()`,
`datetime.utcnow()`) become explicit parameters, since they are ambient
inputs of `simulate`.
-/

namespace SimCore

/-- Character-list version of `str.startswith`: does `hay` begin with `pat`? -/
def leadsWith : List Char → List Char → Bool
  | [], _ => true
  | _ :: _, [] => false
  | c :: cs, d :: ds => c == d && leadsWith cs ds

/-- Character-list version of Python `pat in hay` (substring containment). -/
def hasSub (pat : List Char) : List Char → Bool
  | [] => leadsWith pat []
  | c :: t => leadsWith pat (c :: t) || hasSub pat t

/-- Python `pat in hay` on strings. -/
def strHas (hay pat : String) : Bool :=
  hasSub pat.toList hay.toList

/-- ASCII lower-casing of one character (`str.lower` restricted to the ASCII
range, which covers every keyword the engine tests). -/
def lowerChar (c : Char) : Char :=
  if 65 ≤ c.toNat ∧ c.toNat ≤ 90 then Char.ofNat (c.toNat + 32) else c

/-- Python `s.lower()`: character-wise lower-casing. -/
def strLower (s : String) : String :=
  ⟨s.data.map lowerChar⟩

/-- Python `hay.startswith(pat)` on strings. -/
def strLeads (hay pat : String) : Bool :=
  leadsWith pat.toList hay.toList

/-- The `Persona` dataclass: a static attribute bag describing a synthetic
user.  `demographics` is an open key-value map in the source; it is carried
as an association list and never read by the engine. -/
structure Persona where
  id : String
  name : String
  archetype : String
  demographics : List (String × String) := []
  traits : List String := []
  goals : List String := []
  tech_literacy : String := "intermediate"
  risk_aversion : String := "medium"
  tone : String := "neutral"
  pain_points : List String := []
  motivations : List String := []
  domain_expertise : List String := []
  context : String := ""
deriving Repr, DecidableEq

/-- Reasoning metadata attached to heuristic persona replies
(the `reasoning` dict built in `_heuristic_persona_reply`). -/
structure Reasoning where
  salient_traits : List String
  assumptions : List String
  keywords_hit : List String
  confidence : ℚ
  follow_ups : List String
deriving Repr, DecidableEq

/-- The `meta` dict of a `Message`: empty for user messages, the reasoning
record for heuristic persona replies, `{"source": ..., "turn": ...}` for
replies produced by the optional external agent path. -/
inductive MsgMeta where
  | empty : MsgMeta
  | reasoning : Reasoning → MsgMeta
  | agentMeta : String → ℕ → MsgMeta
deriving Repr, DecidableEq

/-- The `Message` dataclass. -/
structure Message where
  role : String
  content : String
  meta : MsgMeta := .empty
deriving Repr, DecidableEq

/-- The `Conversation` dataclass.  `created_at` is the wall-clock timestamp
taken at construction; it is an explicit input of the embedding. -/
structure Conversation where
  feature_id : String
  feature_title : String
  feature_spec : String
  persona : Persona
  seed : ℤ
  messages : List Message
  created_at : String
deriving Repr, DecidableEq

/-- The process-wide random source after `random.seed(seed)`: an abstract
stream of draws indexed by how many draws were consumed so far.  `floats n`
is the value of the n-th draw when consumed by `random.random()` (a float in
[0,1)); `ints n` is the n-th draw when consumed by `random.randint` or
`random.choice`.  Two generator instances seeded identically have identical
streams, so re-using one `RandomSource` value models two identically seeded
independent instances. -/
structure RandomSource where
  floats : ℕ → ℚ
  ints : ℕ → ℕ

/-- Python `round(x, 2)`: round to two decimal places. -/
def round2 (x : ℚ) : ℚ :=
  (round (x * 100) : ℤ) / 100

/-- The hedge words tested by `_score_confidence`. -/
def hedgeWords : List String := ["unclear", "confusing", "not sure"]

/-- `_score_confidence(persona, text)`: base 0.55, +0.15 for expert tech
literacy, −0.05 for high risk aversion, −0.2 when a hedge word occurs in the
lower-cased text, plus jitter `(u − 0.5) * 0.1` where `u` is the
`random.random()` draw, clamped to [0.05, 0.95]. -/
def scoreConfidence (persona : Persona) (text : String) (u : ℚ) : ℚ :=
  let base : ℚ := 0.55
  let base := if persona.tech_literacy = "expert" then base + 0.15 else base
  let base := if persona.risk_aversion = "high" then base - 0.05 else base
  let base :=
    if hedgeWords.any (fun k => strHas (strLower text) k) then base - 0.2 else base
  max 0.05 (min 0.95 (base + (u - 0.5) * 0.1))

/-- `_extract_followups(persona, spec)`: ordered keyword rules over the
lower-cased spec, generic fallback when none fire, truncated to 6. -/
def extractFollowups (persona : Persona) (spec : String) : List String :=
  let low := strLower spec
  let qs : List String := []
  let qs := if strHas low "analytics" then
    qs ++ ["Which success metrics and target thresholds are defined?"] else qs
  let qs := if strHas low "onboarding" then
    qs ++ ["Can users skip steps and finish later?"] else qs
  let qs := if strHas low "paywall" || strHas low "pricing" || strHas low "trial" then
    qs ++ ["Is there a free trial or grace period before payment is required?"] else qs
  let qs := if ["accessibility", "aria", "keyboard", "contrast", "wcag"].any
      (fun k => strHas low k) then
    qs ++ ["Have you tested keyboard-only navigation and screen-reader labels?"] else qs
  let qs := if strHas low "privacy" || strHas low "gdpr" then
    qs ++ ["What data is collected and how is it governed?"] else qs
  let qs := if qs.isEmpty then
    qs ++ ["What is the primary job-to-be-done for this feature?"] else qs
  qs.take 6

/-- The tracked keywords reported under `signals.keywords_hit`. -/
def trackedKeywords : List String :=
  ["onboarding", "dashboard", "mobile", "access", "paywall", "pricing",
   "aria", "privacy", "gdpr", "keyboard", "contrast"]

/-- The kudos collected by `_heuristic_persona_reply` over the lower-cased
concatenation of user message and spec, in source rule order. -/
def kudosOf (persona : Persona) (lower : String) : List String :=
  if strHas (strLower persona.archetype) "gen z" || persona.tone = "casual" then
    ["Looks fun if visuals stay bold with quick motion affordances."] else []

/-- The concerns collected by `_heuristic_persona_reply`, in source rule order. -/
def concernsOf (persona : Persona) (lower : String) : List String :=
  (if strHas lower "onboarding" || strHas lower "signup" then
    ["Onboarding may be too long; consider progressive disclosure."] else []) ++
  (if strHas lower "mobile" then
    ["Ensure tap targets are >= 44px and content is responsive."] else []) ++
  (if ["paywall", "pricing", "trial"].any (fun k => strHas lower k) then
    ["Hard paywalls can increase drop-off; test a trial or freemium."] else []) ++
  (if strHas lower "privacy" || strHas lower "gdpr" then
    ["Clarify data processing, retention, and opt-out; add a DPIA summary."] else []) ++
  (if strLeads (strLower persona.archetype) "security" ||
      strHas (strLower persona.archetype) "security" then
    ["Need SSO/MFA, audit logs, and data retention controls."] else []) ++
  (if strHas (strLower persona.archetype) "screen" ||
      strHas (strLower persona.archetype) "accessibility" then
    ["Verify no keyboard traps; test with VoiceOver/NVDA."] else [])

/-- The suggestions collected by `_heuristic_persona_reply`, in source rule
order. -/
def suggestionsOf (persona : Persona) (lower : String) : List String :=
  (if strHas lower "dashboard" then
    ["Surface the top 3 KPIs above the fold; defer advanced charts."] else []) ++
  (if ["access", "aria", "keyboard", "contrast", "wcag", "color"].any
      (fun k => strHas lower k) then
    ["Add aria-labels, visible focus states, and non-color cues to meet WCAG 2.2 AA."]
   else []) ++
  (if strHas lower "api" || strHas lower "export" then
    ["Provide API endpoints and bulk export options for power users."] else []) ++
  (if strHas (strLower persona.archetype) "product manager" then
    ["Define success metrics and an A/B test plan."] else [])

/-- The fallback sentence used when no category fired. -/
def fallbackReply : String :=
  "Looks promising; would like to test a clickable prototype."

/-- `_heuristic_persona_reply(persona, user_msg, feature_spec)`: derive the
category lists from keyword signals, score confidence on the user message
(`u` is the `random.random()` draw consumed there), extract follow-ups from
the spec, and compose reply text and reasoning metadata. -/
def heuristicPersonaReply (persona : Persona) (userMsg featureSpec : String)
    (u : ℚ) : String × Reasoning :=
  let lower := strLower (userMsg ++ " " ++ featureSpec)
  let concerns := concernsOf persona lower
  let kudos := kudosOf persona lower
  let suggestions := suggestionsOf persona lower
  let confidence := scoreConfidence persona userMsg u
  let followups := extractFollowups persona featureSpec
  let summary : List String := []
  let summary := if kudos.isEmpty then summary else
    summary ++ ["**What I like:** " ++ String.intercalate "; " kudos]
  let summary := if concerns.isEmpty then summary else
    summary ++ ["**Concerns:** " ++ String.intercalate "; " concerns]
  let summary := if suggestions.isEmpty then summary else
    summary ++ ["**Suggestions:** " ++ String.intercalate "; " suggestions]
  let summary := if summary.isEmpty then summary ++ [fallbackReply] else summary
  let reasoning : Reasoning :=
    { salient_traits := persona.traits.take 3
      assumptions := ["User intent inferred from provided spec",
                      "No live usability data"]
      keywords_hit := trackedKeywords.filter (fun k => strHas lower k)
      confidence := round2 confidence
      follow_ups := followups }
  (String.intercalate "\n\n" summary, reasoning)

/-- `random.choice(l)` with `v` the underlying draw: pick index `v mod l.length`. -/
def listChoice (l : List String) (v : ℕ) : String :=
  l.getD (v % l.length) ""

/-- The trailing loop of the heuristic branch of `simulate`
(`for t in range(1, turns)`): `k` iterations remain, `n` is the shared random
counter; each iteration draws a follow-up question by `random.choice` from
the FIRST reply's `meta["follow_ups"]` and appends a (user, persona) pair. -/
def heurLoop (persona : Persona) (featureSpec : String) (fups : List String)
    (r : RandomSource) : ℕ → ℕ → List Message
  | 0, _ => []
  | k + 1, n =>
    let q := listChoice fups (r.ints n)
    let rep := heuristicPersonaReply persona q featureSpec (r.floats (n + 1))
    Message.mk "user" q .empty ::
      Message.mk "persona" rep.1 (.reasoning rep.2) ::
        heurLoop persona featureSpec fups r k (n + 2)

/-- The loop of the external-agent branch of `simulate`
(`for t in range(turns)`): the agent's `listen_and_act` is the external
collaborator `agent`, a function of the turn index and prompt; each iteration
appends the agent reply and a user follow-up chosen by `random.choice` from
the freshly extracted follow-up list. -/
def agentLoop (agent : ℕ → String → String) (persona : Persona)
    (featureSpec : String) (r : RandomSource) :
    ℕ → ℕ → ℕ → String → List Message
  | 0, _, _, _ => []
  | k + 1, n, t, prompt =>
    let resp := agent t prompt
    let fq := extractFollowups persona featureSpec
    let nextPrompt := "Follow-up: " ++ listChoice fq (r.ints n)
    Message.mk "persona" resp (.agentMeta "tinytroupe" (t + 1)) ::
      Message.mk "user" nextPrompt .empty ::
        agentLoop agent persona featureSpec r k (n + 1) (t + 1) nextPrompt

/-- `SimulationEngine.simulate`.  `agentPath` is the availability test
`TT_AVAILABLE and (OPENAI_API_KEY or AZURE_OPENAI_KEY)`; `agent` is the
external agent backend used on that path; `now` is the `int(time.time())`
wall-clock reading and `createdAt` the `datetime.utcnow()` timestamp; `r` is
the shared random source as reset by `random.seed(seed)`, whose draw 0 is
consumed by the `random.randint(1000, 9999)` in `feature_id`. -/
def openerText (featureTitle featureSpec : String) : String :=
  "Please review the feature: " ++ featureTitle ++ ". Key context:\n" ++
    featureSpec ++ "\nShare candid feedback in your usual tone."

def simulate (agentPath : Bool) (agent : ℕ → String → String)
    (persona : Persona) (featureTitle featureSpec : String)
    (turns seed : ℤ) (now : ℕ) (createdAt : String)
    (r : RandomSource) : Conversation :=
  let fid := toString now ++ "-" ++ toString (1000 + r.ints 0 % 9000)
  let userOpen := openerText featureTitle featureSpec
  let msgs : List Message :=
    if agentPath then
      Message.mk "user" userOpen .empty ::
        agentLoop agent persona featureSpec r turns.toNat 1 0 userOpen
    else
      let rep := heuristicPersonaReply persona userOpen featureSpec (r.floats 1)
      Message.mk "user" userOpen .empty ::
        Message.mk "persona" rep.1 (.reasoning rep.2) ::
          heurLoop persona featureSpec rep.2.follow_ups r (turns - 1).toNat 2
  { feature_id := fid
    feature_title := if featureTitle.trim = "" then "Untitled Feature"
                     else featureTitle.trim
    feature_spec := featureSpec.trim
    persona := persona
    seed := seed
    messages := msgs
    created_at := createdAt }

/-- Number of messages carrying the given role. -/
def countRole (role : String) (ms : List Message) : ℕ :=
  ms.countP (fun m => m.role == role)

/-- Strict role alternation: with `expectUser = true` the next message must
have role `user`, then roles flip for the rest of the list. -/
def altFrom (expectUser : Bool) : List Message → Bool
  | [] => true
  | m :: ms =>
    (m.role == (if expectUser then "user" else "persona")) && altFrom (!expectUser) ms

/-- True when none of the five follow-up keyword rules matches the spec text. -/
def noFollowupRuleMatches (spec : String) : Bool :=
  let low := strLower spec
  !(strHas low "analytics") && !(strHas low "onboarding") &&
  !(strHas low "paywall" || strHas low "pricing" || strHas low "trial") &&
  !(["accessibility", "aria", "keyboard", "contrast", "wcag"].any
      (fun k => strHas low k)) &&
  !(strHas low "privacy" || strHas low "gdpr")

/-- Modelled from the spec (§4.2 Composition): build the reply text by
concatenating the non-empty category blocks in order kudos → concerns →
suggestions, each a bolded label followed by the semicolon-joined items, and
substitute the single fallback sentence when all three categories are empty. -/
def specComposeReply (kudos concerns suggestions : List String) : String :=
  let blocks : List String :=
    (if kudos.isEmpty then [] else
      ["**What I like:** " ++ String.intercalate "; " kudos]) ++
    (if concerns.isEmpty then [] else
      ["**Concerns:** " ++ String.intercalate "; " concerns]) ++
    (if suggestions.isEmpty then [] else
      ["**Suggestions:** " ++ String.intercalate "; " suggestions])
  if blocks.isEmpty then fallbackReply
  else String.intercalate "\n\n" blocks

/-- A concrete persona used for witnesses and counterexamples. -/
def p0 : Persona :=
  { id := "p0", name := "Ada", archetype := "Data analyst" }

/-- A concrete expert, low-risk-aversion persona. -/
def pExpert : Persona :=
  { id := "pe", name := "Lin", archetype := "Staff engineer",
    tech_literacy := "expert", risk_aversion := "low" }

/-- A concrete random source: every float draw is 1/2, every int draw is 0. -/
def r0 : RandomSource :=
  { floats := fun _ => 1 / 2, ints := fun _ => 0 }

/-- A concrete external agent that echoes the turn index. -/
def ag0 : ℕ → String → String :=
  fun t _ => "agent reply " ++ toString t

/-- On the heuristic branch, the message list of `simulate` is the opener,
the first persona reply, and the trailing loop. -/
theorem simulate_messages_heur (agent : ℕ → String → String) (persona : Persona)
    (featureTitle featureSpec : String) (turns seed : ℤ) (now : ℕ)
    (ca : String) (r : RandomSource) :
    (simulate false agent persona featureTitle featureSpec turns seed now ca r).messages =
      Message.mk "user" (openerText featureTitle featureSpec) .empty ::
      Message.mk "persona"
        (heuristicPersonaReply persona (openerText featureTitle featureSpec)
          featureSpec (r.floats 1)).1
        (.reasoning (heuristicPersonaReply persona (openerText featureTitle featureSpec)
          featureSpec (r.floats 1)).2) ::
      heurLoop persona featureSpec
        (heuristicPersonaReply persona (openerText featureTitle featureSpec)
          featureSpec (r.floats 1)).2.follow_ups
        r (turns - 1).toNat 2 :=
  rfl

/-- On the external-agent branch, the message list of `simulate` is the
opener followed by the agent loop. -/
theorem simulate_messages_agent (agent : ℕ → String → String) (persona : Persona)
    (featureTitle featureSpec : String) (turns seed : ℤ) (now : ℕ)
    (ca : String) (r : RandomSource) :
    (simulate true agent persona featureTitle featureSpec turns seed now ca r).messages =
      Message.mk "user" (openerText featureTitle featureSpec) .empty ::
        agentLoop agent persona featureSpec r turns.toNat 1 0
          (openerText featureTitle featureSpec) :=
  rfl

/-- Each iteration of the heuristic trailing loop emits a user message and a
persona message, so the whole loop alternates starting from user. -/
theorem heurLoop_alt (persona : Persona) (featureSpec : String)
    (fups : List String) (r : RandomSource) :
    ∀ k n, altFrom true (heurLoop persona featureSpec fups r k n) = true := by
  intro k
  induction k with
  | zero => intro n; rfl
  | succ k ih =>
    intro n
    simp only [heurLoop, altFrom, Bool.not_true, Bool.not_false]
    simpa using ih (n + 2)

/-- The heuristic trailing loop emits exactly `k` user messages. -/
theorem heurLoop_count_user (persona : Persona) (featureSpec : String)
    (fups : List String) (r : RandomSource) :
    ∀ k n, countRole "user" (heurLoop persona featureSpec fups r k n) = k := by
  intro k
  induction k with
  | zero => intro n; rfl
  | succ k ih =>
    intro n
    simp only [heurLoop, countRole, List.countP_cons]
    simp only [countRole] at ih
    rw [ih (n + 2)]
    rfl

/-- The heuristic trailing loop emits exactly `k` persona messages. -/
theorem heurLoop_count_persona (persona : Persona) (featureSpec : String)
    (fups : List String) (r : RandomSource) :
    ∀ k n, countRole "persona" (heurLoop persona featureSpec fups r k n) = k := by
  intro k
  induction k with
  | zero => intro n; rfl
  | succ k ih =>
    intro n
    simp only [heurLoop, countRole, List.countP_cons]
    simp only [countRole] at ih
    rw [ih (n + 2)]
    rfl

/-- Each iteration of the agent-path loop emits a persona message and a user
message, so the whole loop alternates starting from persona. -/
theorem agentLoop_alt (agent : ℕ → String → String) (persona : Persona)
    (featureSpec : String) (r : RandomSource) :
    ∀ k n t prompt,
      altFrom false (agentLoop agent persona featureSpec r k n t prompt) = true := by
  intro k
  induction k with
  | zero => intro n t prompt; rfl
  | succ k ih =>
    intro n t prompt
    simp only [agentLoop, altFrom, Bool.not_false, Bool.not_true]
    simpa using ih (n + 1) (t + 1) _

/-- The agent-path loop emits exactly `k` user messages. -/
theorem agentLoop_count_user (agent : ℕ → String → String) (persona : Persona)
    (featureSpec : String) (r : RandomSource) :
    ∀ k n t prompt,
      countRole "user" (agentLoop agent persona featureSpec r k n t prompt) = k := by
  intro k
  induction k with
  | zero => intro n t prompt; rfl
  | succ k ih =>
    intro n t prompt
    simp only [agentLoop, countRole, List.countP_cons]
    simp only [countRole] at ih
    rw [ih (n + 1) (t + 1) _]
    rfl

/-- The agent-path loop emits exactly `k` persona messages. -/
theorem agentLoop_count_persona (agent : ℕ → String → String) (persona : Persona)
    (featureSpec : String) (r : RandomSource) :
    ∀ k n t prompt,
      countRole "persona" (agentLoop agent persona featureSpec r k n t prompt) = k := by
  intro k
  induction k with
  | zero => intro n t prompt; rfl
  | succ k ih =>
    intro n t prompt
    simp only [agentLoop, countRole, List.countP_cons]
    simp only [countRole] at ih
    rw [ih (n + 1) (t + 1) _]
    rfl

/-- Claim C1, counterexample: two `simulate` calls with identical
(persona, title, spec, turns, seed) and identically seeded random sources,
made at the same `time.time()` reading but different `datetime.utcnow()`
readings, agree on `feature_id` yet still differ — in `created_at` — so it is
not true that only `feature_id` may differ. -/
theorem claim_C1_cex :
    (simulate false ag0 p0 "T" "S" 4 42 100 "A" r0).feature_id =
      (simulate false ag0 p0 "T" "S" 4 42 100 "B" r0).feature_id ∧
    (simulate false ag0 p0 "T" "S" 4 42 100 "A" r0).created_at ≠
      (simulate false ag0 p0 "T" "S" 4 42 100 "B" r0).created_at := by
  exact ⟨rfl, by decide⟩

/-- Claim C1, amended: calling `simulate` twice with identical
(persona, title, spec, turns, seed) on independent random-source instances
(identically seeded, hence with the same draw stream `r`) yields Conversations
with identical messages — hence identical per-position content and confidence
scores — and identical title, spec, persona and seed fields; only
`feature_id` and `created_at`, the wall-clock-derived fields, may differ. -/
theorem claim_C1 (agentPath : Bool) (agent : ℕ → String → String)
    (persona : Persona) (featureTitle featureSpec : String) (turns seed : ℤ)
    (now₁ now₂ : ℕ) (ca₁ ca₂ : String) (r : RandomSource) :
    (simulate agentPath agent persona featureTitle featureSpec turns seed now₁ ca₁ r).messages =
      (simulate agentPath agent persona featureTitle featureSpec turns seed now₂ ca₂ r).messages ∧
    (simulate agentPath agent persona featureTitle featureSpec turns seed now₁ ca₁ r).feature_title =
      (simulate agentPath agent persona featureTitle featureSpec turns seed now₂ ca₂ r).feature_title ∧
    (simulate agentPath agent persona featureTitle featureSpec turns seed now₁ ca₁ r).feature_spec =
      (simulate agentPath agent persona featureTitle featureSpec turns seed now₂ ca₂ r).feature_spec ∧
    (simulate agentPath agent persona featureTitle featureSpec turns seed now₁ ca₁ r).persona =
      (simulate agentPath agent persona featureTitle featureSpec turns seed now₂ ca₂ r).persona ∧
    (simulate agentPath agent persona featureTitle featureSpec turns seed now₁ ca₁ r).seed =
      (simulate agentPath agent persona featureTitle featureSpec turns seed now₂ ca₂ r).seed :=
  ⟨rfl, rfl, rfl, rfl, rfl⟩

/-- Claim C2, counterexample: on the heuristic path with requested turn count
0, the returned conversation still contains a persona reply, so the number of
persona-role messages does not equal the requested turn count. -/
theorem claim_C2_cex :
    countRole "persona" (simulate false ag0 p0 "T" "S" 0 42 0 "ts" r0).messages ≠ 0 := by
  decide

/-- Claim C2, amended: for every requested turn count ≥ 1, the messages of
the returned Conversation strictly alternate roles starting with `user`, and
the number of persona-role messages equals the requested turn count (each
persona reply is therefore preceded by exactly one user message). -/
theorem claim_C2 (agentPath : Bool) (agent : ℕ → String → String)
    (persona : Persona) (featureTitle featureSpec : String) (turns seed : ℤ)
    (now : ℕ) (ca : String) (r : RandomSource) (h : 1 ≤ turns) :
    altFrom true
      (simulate agentPath agent persona featureTitle featureSpec turns seed now ca r).messages
        = true ∧
    countRole "persona"
      (simulate agentPath agent persona featureTitle featureSpec turns seed now ca r).messages
        = turns.toNat := by
  cases agentPath with
  | true =>
    rw [simulate_messages_agent]
    constructor
    · simp only [altFrom, Bool.not_true]
      simpa using agentLoop_alt agent persona featureSpec r turns.toNat 1 0
        (openerText featureTitle featureSpec)
    · simp only [countRole, List.countP_cons]
      have hc := agentLoop_count_persona agent persona featureSpec r turns.toNat 1 0
        (openerText featureTitle featureSpec)
      simp only [countRole] at hc
      rw [hc]
      rfl
  | false =>
    rw [simulate_messages_heur]
    constructor
    · simp only [altFrom, Bool.not_true, Bool.not_false]
      simpa using heurLoop_alt persona featureSpec
        (heuristicPersonaReply persona (openerText featureTitle featureSpec)
          featureSpec (r.floats 1)).2.follow_ups r (turns - 1).toNat 2
    · simp only [countRole, List.countP_cons]
      have hc := heurLoop_count_persona persona featureSpec
        (heuristicPersonaReply persona (openerText featureTitle featureSpec)
          featureSpec (r.floats 1)).2.follow_ups r (turns - 1).toNat 2
      simp only [countRole] at hc
      rw [hc]
      simp
      omega

/-- Claim C2, witness: at turn count 2 on the heuristic path the hypothesis
holds and the amended claim evaluates as stated. -/
theorem claim_C2_witness :
    (1 : ℤ) ≤ 2 ∧
    (altFrom true (simulate false ag0 p0 "T" "S" 2 42 0 "ts" r0).messages = true ∧
     countRole "persona" (simulate false ag0 p0 "T" "S" 2 42 0 "ts" r0).messages =
       (2 : ℤ).toNat) :=
  ⟨by decide, claim_C2 false ag0 p0 "T" "S" 2 42 0 "ts" r0 (by decide)⟩

/-- Claim C3, counterexample: on the heuristic path with turns = 4 the
conversation contains 4 user-role messages (the opener plus 3 follow-ups),
not 5. -/
theorem claim_C3_cex :
    countRole "user" (simulate false ag0 p0 "T" "S" 4 42 0 "ts" r0).messages ≠ 5 := by
  decide

/-- Claim C3, amended: on the heuristic reply path, calling `simulate` with
turns = 4 produces a Conversation containing exactly 4 persona-role messages
and exactly 4 user-role messages. -/
theorem claim_C3 (agent : ℕ → String → String) (persona : Persona)
    (featureTitle featureSpec : String) (seed : ℤ) (now : ℕ) (ca : String)
    (r : RandomSource) :
    countRole "persona"
      (simulate false agent persona featureTitle featureSpec 4 seed now ca r).messages = 4 ∧
    countRole "user"
      (simulate false agent persona featureTitle featureSpec 4 seed now ca r).messages = 4 := by
  rw [simulate_messages_heur]
  constructor
  · simp only [countRole, List.countP_cons]
    have hc := heurLoop_count_persona persona featureSpec
      (heuristicPersonaReply persona (openerText featureTitle featureSpec)
        featureSpec (r.floats 1)).2.follow_ups r ((4 : ℤ) - 1).toNat 2
    simp only [countRole] at hc
    rw [hc]
    simp
  · simp only [countRole, List.countP_cons]
    have hc := heurLoop_count_user persona featureSpec
      (heuristicPersonaReply persona (openerText featureTitle featureSpec)
        featureSpec (r.floats 1)).2.follow_ups r ((4 : ℤ) - 1).toNat 2
    simp only [countRole] at hc
    rw [hc]
    simp

/-- Claim C4: for every persona, every text, and every state of the random
source (any draw the jitter may consume), `score_confidence` returns a value
in the closed interval [0.05, 0.95]. -/
theorem claim_C4 (persona : Persona) (text : String) (r : RandomSource) (n : ℕ) :
    (0.05 : ℚ) ≤ scoreConfidence persona text (r.floats n) ∧
      scoreConfidence persona text (r.floats n) ≤ 0.95 := by
  unfold scoreConfidence
  exact ⟨le_max_left _ _, max_le (by norm_num) (min_le_left _ _)⟩

/-- Claim C5: for an expert, low-risk-aversion persona and a text whose
lower-casing contains no hedge word, the confidence is 0.70 before jitter,
and for every random draw in [0, 1) the final value lies in [0.65, 0.75]
(neither clamp binds). -/
theorem claim_C5 (persona : Persona) (text : String) (r : RandomSource) (n : ℕ)
    (hTech : persona.tech_literacy = "expert")
    (hRisk : persona.risk_aversion = "low")
    (hHedge : hedgeWords.any (fun k => strHas (strLower text) k) = false)
    (hLo : 0 ≤ r.floats n) (hHi : r.floats n < 1) :
    (0.65 : ℚ) ≤ scoreConfidence persona text (r.floats n) ∧
      scoreConfidence persona text (r.floats n) ≤ 0.75 := by
  unfold scoreConfidence
  dsimp only
  rw [if_pos hTech]
  rw [if_neg (show ¬persona.risk_aversion = "high" by rw [hRisk]; decide)]
  rw [if_neg (show ¬(hedgeWords.any fun k => strHas (strLower text) k) = true by
    rw [hHedge]; decide)]
  have hx1 : (0.65 : ℚ) ≤ 0.55 + 0.15 + (r.floats n - 0.5) * 0.1 := by nlinarith
  have hx2 : (0.55 : ℚ) + 0.15 + (r.floats n - 0.5) * 0.1 ≤ 0.75 := by nlinarith
  rw [min_eq_right (by linarith), max_eq_right (by linarith)]
  exact ⟨hx1, hx2⟩

/-- Claim C5, witness: the expert persona, a hedge-free text and the draw 1/2
satisfy every hypothesis, and the bounds evaluate as stated. -/
theorem claim_C5_witness :
    pExpert.tech_literacy = "expert" ∧ pExpert.risk_aversion = "low" ∧
    hedgeWords.any (fun k => strHas (strLower "great") k) = false ∧
    0 ≤ r0.floats 0 ∧ r0.floats 0 < 1 ∧
    ((0.65 : ℚ) ≤ scoreConfidence pExpert "great" (r0.floats 0) ∧
      scoreConfidence pExpert "great" (r0.floats 0) ≤ 0.75) :=
  ⟨rfl, rfl, by decide, by norm_num [r0], by norm_num [r0],
    claim_C5 pExpert "great" r0 0 rfl rfl (by decide)
      (by norm_num [r0]) (by norm_num [r0])⟩

/-- Claim C6: for every persona and spec text (the empty string included),
`extract_followups` returns between 1 and 6 questions, and when no keyword
rule matches it returns exactly the single generic job-to-be-done fallback. -/
theorem claim_C6 (persona : Persona) (spec : String) :
    1 ≤ (extractFollowups persona spec).length ∧
    (extractFollowups persona spec).length ≤ 6 ∧
    (noFollowupRuleMatches spec = true →
      extractFollowups persona spec =
        ["What is the primary job-to-be-done for this feature?"]) := by
  unfold extractFollowups noFollowupRuleMatches
  dsimp only
  split <;> split <;> split <;> split <;> split <;> (try simp_all) <;>
    (intros; simp_all)

/-- Claim C6, witness: the empty spec matches no rule and yields exactly the
fallback question, of length 1 ≤ 6. -/
theorem claim_C6_witness :
    noFollowupRuleMatches "" = true ∧
    extractFollowups p0 "" =
      ["What is the primary job-to-be-done for this feature?"] :=
  ⟨by decide, (claim_C6 p0 "").2.2 (by decide)⟩

/-- Claim C7: for the spec text about a paywall with trial and GDPR-compliant
export, `extract_followups` contains both the free-trial question and the
data-governance question, the trial question first. -/
theorem claim_C7 :
    "Is there a free trial or grace period before payment is required?" ∈
      extractFollowups p0
        "Add a paywall with a 7-day trial and GDPR-compliant data export" ∧
    "What data is collected and how is it governed?" ∈
      extractFollowups p0
        "Add a paywall with a 7-day trial and GDPR-compliant data export" ∧
    (extractFollowups p0
        "Add a paywall with a 7-day trial and GDPR-compliant data export").indexOf
        "Is there a free trial or grace period before payment is required?" <
      (extractFollowups p0
        "Add a paywall with a 7-day trial and GDPR-compliant data export").indexOf
        "What data is collected and how is it governed?" := by
  decide

/-- Joining a single block with the paragraph separator is the block itself. -/
theorem intercalate_single (s a : String) : String.intercalate s [a] = a := rfl

/-- Claim C8: the heuristic reply text is the concatenation of the non-empty
category blocks in the order kudos, concerns, suggestions, each a bolded
label followed by the semicolon-joined items (as described by the spec-side
`specComposeReply`), and when all three categories are empty it is exactly
the fallback sentence. -/
theorem claim_C8 (persona : Persona) (userMsg featureSpec : String) (u : ℚ) :
    (heuristicPersonaReply persona userMsg featureSpec u).1 =
      specComposeReply
        (kudosOf persona (strLower (userMsg ++ " " ++ featureSpec)))
        (concernsOf persona (strLower (userMsg ++ " " ++ featureSpec)))
        (suggestionsOf persona (strLower (userMsg ++ " " ++ featureSpec))) ∧
    (kudosOf persona (strLower (userMsg ++ " " ++ featureSpec)) = [] →
     concernsOf persona (strLower (userMsg ++ " " ++ featureSpec)) = [] →
     suggestionsOf persona (strLower (userMsg ++ " " ++ featureSpec)) = [] →
       (heuristicPersonaReply persona userMsg featureSpec u).1 = fallbackReply) := by
  constructor
  · unfold heuristicPersonaReply specComposeReply
    dsimp only
    cases hk : (kudosOf persona (strLower (userMsg ++ " " ++ featureSpec))).isEmpty <;>
      cases hc : (concernsOf persona (strLower (userMsg ++ " " ++ featureSpec))).isEmpty <;>
        cases hs : (suggestionsOf persona (strLower (userMsg ++ " " ++ featureSpec))).isEmpty <;>
          simp [hk, hc, hs, intercalate_single]
  · intro hk hc hs
    unfold heuristicPersonaReply
    dsimp only
    simp [hk, hc, hs, intercalate_single]

/-- Claim C8, witness: for inputs firing none of the category rules, the
composed text is the fallback sentence, and the composition identity holds. -/
theorem claim_C8_witness :
    (heuristicPersonaReply p0 "hello" "nothing here" (1 / 2)).1 =
      specComposeReply
        (kudosOf p0 (strLower ("hello" ++ " " ++ "nothing here")))
        (concernsOf p0 (strLower ("hello" ++ " " ++ "nothing here")))
        (suggestionsOf p0 (strLower ("hello" ++ " " ++ "nothing here"))) ∧
    (heuristicPersonaReply p0 "hello" "nothing here" (1 / 2)).1 = fallbackReply :=
  ⟨(claim_C8 p0 "hello" "nothing here" (1 / 2)).1,
   (claim_C8 p0 "hello" "nothing here" (1 / 2)).2 (by decide) (by decide) (by decide)⟩

/-- Claim C9: on the heuristic path, `simulate` with turns < 1 raises no
error and returns exactly the opening user message followed by one persona
reply — the trailing loop body never executes — so the conversation has one
user message and one persona message. -/
theorem claim_C9 (agent : ℕ → String → String) (persona : Persona)
    (featureTitle featureSpec : String) (turns seed : ℤ) (now : ℕ)
    (ca : String) (r : RandomSource) (h : turns < 1) :
    (simulate false agent persona featureTitle featureSpec turns seed now ca r).messages =
      [Message.mk "user" (openerText featureTitle featureSpec) .empty,
       Message.mk "persona"
         (heuristicPersonaReply persona (openerText featureTitle featureSpec)
           featureSpec (r.floats 1)).1
         (.reasoning (heuristicPersonaReply persona (openerText featureTitle featureSpec)
           featureSpec (r.floats 1)).2)] ∧
    countRole "user"
      (simulate false agent persona featureTitle featureSpec turns seed now ca r).messages = 1 ∧
    countRole "persona"
      (simulate false agent persona featureTitle featureSpec turns seed now ca r).messages = 1 := by
  have h0 : (turns - 1).toNat = 0 := by omega
  rw [simulate_messages_heur, h0]
  refine ⟨rfl, ?_, ?_⟩ <;> simp [heurLoop, countRole]

/-- Claim C9, witness: at turns = 0 the hypothesis holds and the returned
conversation has exactly one user and one persona message. -/
theorem claim_C9_witness :
    (0 : ℤ) < 1 ∧
    (countRole "user" (simulate false ag0 p0 "T" "S" 0 42 0 "ts" r0).messages = 1 ∧
     countRole "persona" (simulate false ag0 p0 "T" "S" 0 42 0 "ts" r0).messages = 1) :=
  ⟨by decide, (claim_C9 ag0 p0 "T" "S" 0 42 0 "ts" r0 (by decide)).2⟩

/-- Claim C10: the returned Conversation stores the trimmed feature spec and
defaults a blank (after trimming) title to "Untitled Feature", while the
opening user message embeds the raw, un-trimmed title and spec arguments via
the fixed opener template. -/
theorem claim_C10 (agentPath : Bool) (agent : ℕ → String → String)
    (persona : Persona) (featureTitle featureSpec : String) (turns seed : ℤ)
    (now : ℕ) (ca : String) (r : RandomSource) :
    (simulate agentPath agent persona featureTitle featureSpec turns seed now ca r).feature_spec =
      featureSpec.trim ∧
    (simulate agentPath agent persona featureTitle featureSpec turns seed now ca r).feature_title =
      (if featureTitle.trim = "" then "Untitled Feature" else featureTitle.trim) ∧
    ((simulate agentPath agent persona featureTitle featureSpec turns seed now ca r).messages.headD
        (Message.mk "" "" .empty)).content = openerText featureTitle featureSpec ∧
    openerText featureTitle featureSpec =
      "Please review the feature: " ++ featureTitle ++ ". Key context:\n" ++
        featureSpec ++ "\nShare candid feedback in your usual tone." := by
  cases agentPath with
  | false => exact ⟨rfl, rfl, rfl, rfl⟩
  | true => exact ⟨rfl, rfl, rfl, rfl⟩

end SimCore
